import Mathlib

/-!
Verification of the Nautobot custom-field value system against its
natural-language specification.

The development shallowly embeds the data model and the operations of the
custom-field core: the per-object semi-structured value container
(`_custom_field_data`, a JSON blob keyed by custom-field name), the
per-kind value validation of `CustomField`, the regex validation semantics
(Python `re.search`, embedded as a Brzozowski-derivative matcher),
the custom-field query filters with their negated operators, the computed
field rendering fallback policy, the background tasks that fan out
definition deletion / default provisioning / choice renames, and the REST
serializer pieces from `nautobot/extras/api/customfields.py`.

Model-layer code of the repository (`nautobot/extras/models/customfields.py`,
`nautobot/extras/filters.py`, `nautobot/extras/tasks.py`) is not part of the
source tree given here; those operations are modelled from the specification
and are pinned, value for value, by the repository's own test suite
(`nautobot/extras/tests/test_customfields.py`), whose concrete expected
inputs and outputs are re-checked below as `example`s.
-/

namespace Nautobot

/-! ## Custom field values and the per-object value container

A custom field value is a JSON value as stored inside the object's
`_custom_field_data` blob: null, boolean, integer, string, or a list
(multi-select values are lists of strings).  The container itself is a
JSON object, embedded as an association list keyed by the custom field
`name` (the backend key; slugs appear only at the API surface). -/

inductive CFValue where
  | vnull
  | vbool (b : Bool)
  | vint (i : Int)
  | vstr (s : String)
  | vlist (xs : List String)
  deriving Repr, DecidableEq

abbrev CFData := List (String × CFValue)

/-- Lookup of `data[key]`: the first entry with the given key. -/
def cfGet : CFData → String → Option CFValue
  | [], _ => none
  | (k, v) :: rest, key => if k = key then some v else cfGet rest key

/-- Assignment `data[key] = value` with Python-dict semantics: replace the
value in place when the key is present, append otherwise. -/
def cfSet : CFData → String → CFValue → CFData
  | [], k, v => [(k, v)]
  | (pk, pv) :: rest, k, v =>
    if pk = k then (k, v) :: rest else (pk, pv) :: cfSet rest k v

/-- Deletion `del data[key]` / `data.pop(key, None)`. -/
def cfErase (d : CFData) (k : String) : CFData :=
  d.filter (fun p => p.1 ≠ k)

/-- Python `{**a, **b}`: `a` updated by every entry of `b`. -/
def cfMerge (a b : CFData) : CFData :=
  b.foldl (fun acc p => cfSet acc p.1 p.2) a

/-! ## Regular expressions

The validation regexes of `CustomField.validation_regex` are applied with
Python `re.search`: the pattern may match anywhere inside the value, and
only explicit `^`/`$` anchors constrain the match to the string start/end.
The engine below embeds the fragment of Python regex syntax used by the
repository (literal characters, `.`, character classes and ranges, `?` via
alternation with the empty word, `*`, concatenation) as a Brzozowski
derivative matcher.  The `norm` parameter normalises characters on both
sides of a comparison; `id` gives case-sensitive matching and
`Char.toLower` the case-insensitive variants (`iregex`). -/

inductive Regex where
  | emp
  | eps
  | any
  | chr (c : Char)
  | cls (lo hi : Char)
  | set (cs : List Char)
  | seq (a b : Regex)
  | alt (a b : Regex)
  | star (a : Regex)
  deriving Repr, DecidableEq

def Regex.nullable : Regex → Bool
  | .emp => false
  | .eps => true
  | .any => false
  | .chr _ => false
  | .cls _ _ => false
  | .set _ => false
  | .seq a b => a.nullable && b.nullable
  | .alt a b => a.nullable || b.nullable
  | .star _ => true

def Regex.deriv (norm : Char → Char) : Regex → Char → Regex
  | .emp, _ => .emp
  | .eps, _ => .emp
  | .any, _ => .eps
  | .chr c, x => if norm x = norm c then .eps else .emp
  | .cls lo hi, x => if lo ≤ x ∧ x ≤ hi then .eps else .emp
  | .set cs, x => if cs.any (fun c => norm c = norm x) then .eps else .emp
  | .seq a b, x =>
    if a.nullable then .alt (.seq (a.deriv norm x) b) (b.deriv norm x)
    else .seq (a.deriv norm x) b
  | .alt a b, x => .alt (a.deriv norm x) (b.deriv norm x)
  | .star a, x => .seq (a.deriv norm x) (.star a)

/-- The regex matches the whole character list. -/
def Regex.fullmatch (norm : Char → Char) (r : Regex) (s : List Char) : Bool :=
  (s.foldl (Regex.deriv norm) r).nullable

/-- The regex matches some (possibly empty) leading segment of the list. -/
def Regex.matchesLead (norm : Char → Char) : Regex → List Char → Bool
  | r, [] => r.nullable
  | r, c :: cs => r.nullable || Regex.matchesLead norm (r.deriv norm c) cs

/-- Every suffix of a character list, the list itself first. -/
def charTails : List Char → List (List Char)
  | [] => [[]]
  | c :: cs => (c :: cs) :: charTails cs

/-- A compiled validation pattern: the regex body together with the
explicit `^` / `$` anchors of the pattern text, plus the original pattern
text as used in error messages. -/
structure Pattern where
  source : String
  anchorStart : Bool
  anchorEnd : Bool
  body : Regex
  deriving Repr, DecidableEq

/-- Python `re.search` on a character list: try each start position (only
position 0 when the pattern is `^`-anchored); a `$`-anchored pattern must
consume the entire suffix, an unanchored one any leading segment of it. -/
def Pattern.searchList (norm : Char → Char) (p : Pattern) (l : List Char) : Bool :=
  let fromStart := fun suf =>
    if p.anchorEnd then p.body.fullmatch norm suf else p.body.matchesLead norm suf
  if p.anchorStart then fromStart l else (charTails l).any fromStart

/-- Python `re.search(pattern, s)` as used by `CustomField.validate`. -/
def Pattern.search (p : Pattern) (s : String) : Bool :=
  p.searchList id s.toList

/-- Case-insensitive search, as used by the `ire` / `nire` filter lookups. -/
def Pattern.searchCI (p : Pattern) (s : String) : Bool :=
  p.searchList Char.toLower s.toList

/-- The specification's reading of regex validation in C1: the FULL string
must match the pattern.  Stated from the spec's words for comparison with
the source behavior; the code (pinned by its tests) uses `re.search`. -/
def specFullStringMatch (p : Pattern) (s : String) : Bool :=
  p.body.fullmatch id s.toList

/-- The pattern `A.C[01]x?` of `CustomFieldTest.test_regex_validation`. -/
def patternACx : Pattern :=
  { source := "A.C[01]x?"
    anchorStart := false
    anchorEnd := false
    body := .seq (.chr 'A') (.seq .any (.seq (.chr 'C')
      (.seq (.set ['0', '1']) (.alt (.chr 'x') .eps)))) }

/-- The pattern `^[A-Z]{3}$` of `CustomFieldDataAPITest.test_regex_validation`. -/
def patternThreeUpper : Pattern :=
  { source := "^[A-Z]{3}$"
    anchorStart := true
    anchorEnd := true
    body := .seq (.cls 'A' 'Z') (.seq (.cls 'A' 'Z') (.cls 'A' 'Z')) }

/-! ## Field definitions and value validation -/

inductive CustomFieldTypeChoices where
  | TYPE_TEXT
  | TYPE_INTEGER
  | TYPE_BOOLEAN
  | TYPE_DATE
  | TYPE_URL
  | TYPE_JSON
  | TYPE_SELECT
  | TYPE_MULTISELECT
  deriving Repr, DecidableEq

inductive CustomFieldFilterLogicChoices where
  | FILTER_DISABLED
  | FILTER_LOOSE
  | FILTER_EXACT
  deriving Repr, DecidableEq

/-- A custom field definition.  `name` is the backend key into every
object's `_custom_field_data`; `slug` is the API-surface key and is
auto-populated from `name` when not given (mirroring
`CustomField.save`). -/
structure CustomField where
  name : String
  slug : String := name
  label : String := name
  type : CustomFieldTypeChoices := .TYPE_TEXT
  required : Bool := false
  default : Option CFValue := none
  filter_logic : CustomFieldFilterLogicChoices := .FILTER_LOOSE
  validation_minimum : Option Int := none
  validation_maximum : Option Int := none
  validation_regex : Option Pattern := none
  weight : Nat := 100
  deriving Repr, DecidableEq

/-- One allowed value of a select/multi-select field, keyed by the owning
field's name. -/
structure CustomFieldChoice where
  custom_field : String
  value : String
  weight : Nat := 100
  deriving Repr, DecidableEq

/-- An ASCII single quote, written by code point for use in messages. -/
def squote : String := String.singleton (Char.ofNat 39)

/-- Modelled from the spec: the per-kind value validation of
`CustomField.validate` (`nautobot/extras/models/customfields.py`, absent
from `src/`).  Text and url values must be strings and, when a validation
regex is configured, must match it with Python `re.search` semantics as
pinned by `CustomFieldTest.test_regex_validation` (the unanchored value
`00AbC0` validates against `A.C[01]x?`).  Integer bounds are inclusive and
checked on arbitrary-precision integers
(`CustomFieldDataAPITest.test_bigint_values_of_custom_field_maximum_attribute`).
Select values must be one of the declared choice values. -/
def CustomField.validate (cf : CustomField) (choices : List String) (value : CFValue) :
    Except String Unit :=
  match cf.type with
  | .TYPE_TEXT | .TYPE_URL =>
    match value with
    | .vstr s =>
      match cf.validation_regex with
      | some p =>
        if p.search s then .ok ()
        else .error ("Value must match regex " ++ squote ++ p.source ++ squote)
      | none => .ok ()
    | _ => .error "Value must be a string"
  | .TYPE_INTEGER =>
    match value with
    | .vint i =>
      if cf.validation_minimum.any (fun m => decide (i < m)) then
        .error "Value must be at least the configured minimum"
      else if cf.validation_maximum.any (fun m => decide (m < i)) then
        .error "Value must not exceed the configured maximum"
      else .ok ()
    | _ => .error "Value must be an integer"
  | .TYPE_BOOLEAN =>
    match value with
    | .vbool _ => .ok ()
    | .vnull => .ok ()
    | _ => .error "Value must be true or false"
  | .TYPE_DATE =>
    match value with
    | .vstr _ => .ok ()
    | _ => .error "Date values must be in the format YYYY-MM-DD"
  | .TYPE_JSON => .ok ()
  | .TYPE_SELECT =>
    match value with
    | .vstr s =>
      if choices.contains s then .ok ()
      else .error ("Invalid choice (" ++ s ++ ")")
    | _ => .error "Invalid choice"
  | .TYPE_MULTISELECT =>
    match value with
    | .vlist xs =>
      if xs.all (fun x => choices.contains x) then .ok ()
      else .error "Invalid choice(s)"
    | _ => .error "Invalid choice(s)"

/-- Modelled from the spec: `CustomFieldChoice.clean` regex validation of
select/multi-select choice values (absent from `src/`); the message names
both the pattern and the offending value, pinned by
`CustomFieldChoiceTest.test_regex_validation`. -/
def CustomFieldChoice.clean (cf : CustomField) (c : CustomFieldChoice) :
    Except String Unit :=
  match cf.validation_regex with
  | some p =>
    if p.search c.value then .ok ()
    else .error ("Value must match regex " ++ p.source ++ " got " ++ c.value ++ ".")
  | none => .ok ()

/-- The text custom field of `CustomFieldTest.test_regex_validation`. -/
def cfRegexText : CustomField :=
  { name := "cf_test_text", type := .TYPE_TEXT, required := false,
    validation_regex := some patternACx }

/-- The integer custom field of
`CustomFieldDataAPITest.test_bigint_values_of_custom_field_maximum_attribute`,
with both bounds set beyond the 32-bit range. -/
def cfNumber : CustomField :=
  { name := "number_field", slug := "number_cf", type := .TYPE_INTEGER,
    validation_minimum := some (-5000000000),
    validation_maximum := some 5000000000 }

/-- The min=10 / max=20 field of
`CustomFieldDataAPITest.test_minimum_maximum_values_validation`. -/
def cfMinMax : CustomField :=
  { name := "number_field", slug := "number_cf", type := .TYPE_INTEGER,
    validation_minimum := some 10, validation_maximum := some 20 }

/-! ## Immutability of persisted field definitions (C4)

`CustomField.clean` compares the in-memory instance against the persisted
database row and rejects any change to `name`, `slug` or `type`;
`validated_save` is `full_clean` followed by `save`, so a rejected change
leaves the row untouched.  Modelled from the spec (model code absent from
`src/`), pinned by `CustomFieldTest.test_immutable_fields`. -/

/-- Modelled from the spec: the immutability check of `CustomField.clean`
for an already-persisted definition (`db` is the persisted row, if any). -/
def CustomField.clean (db : Option CustomField) (cur : CustomField) :
    Except String Unit :=
  match db with
  | none => .ok ()
  | some orig =>
    if cur.name ≠ orig.name then .error "Name cannot be changed once created"
    else if cur.slug ≠ orig.slug then .error "Slug cannot be changed once created"
    else if cur.type ≠ orig.type then .error "Type cannot be changed once created"
    else .ok ()

/-- Modelled from the spec: `validated_save` = `full_clean` then `save`.
Returns the resulting persisted row together with whether the save
happened; a `ValidationError` leaves the persisted row unchanged. -/
def CustomField.validated_save (db : Option CustomField) (cur : CustomField) :
    Option CustomField × Except String Unit :=
  match CustomField.clean db cur with
  | .error e => (db, .error e)
  | .ok () => (some cur, .ok ())

/-- The persisted definition of `CustomFieldTest.test_immutable_fields`. -/
def cfImmutable : CustomField :=
  { name := "Custom Field", slug := "custom_field", type := .TYPE_TEXT }

/-! ## Objects, the database, and the background tasks (C5, C6, C10) -/

/-- A custom-field-capable object: its primary key and its
`_custom_field_data` container. -/
structure StoredObject where
  pk : Nat
  custom_field_data : CFData
  deriving Repr, DecidableEq

/-- The state the background tasks operate on: field definitions, choice
rows, and the objects of the applicable content types. -/
structure Database where
  fields : List CustomField
  choices : List CustomFieldChoice
  objects : List StoredObject
  deriving Repr, DecidableEq

/-- Modelled from the spec: deleting a `CustomField` cascades to its
`CustomFieldChoice` rows and dispatches the `delete_custom_field_data`
background task, which removes the field's key from every object's
`_custom_field_data` (`nautobot/extras/tasks.py`, absent from `src/`);
pinned by `CustomFieldBackgroundTasks.test_delete_custom_field_data_task`
and `CustomFieldChoiceTest.test_custom_choice_deleted_with_field`. -/
def deleteCustomField (db : Database) (name : String) : Database :=
  { fields := db.fields.filter (fun f => f.name ≠ name)
    choices := db.choices.filter (fun c => c.custom_field ≠ name)
    objects := db.objects.map (fun o =>
      { o with custom_field_data := cfErase o.custom_field_data name }) }

/-- Replacement of a renamed choice value inside a multi-select list. -/
def substChoice (old new : String) (xs : List String) : List String :=
  xs.map (fun x => if x = old then new else x)

/-- Modelled from the spec: the `update_custom_field_choice_data`
background task run when a `CustomFieldChoice` value is renamed
(`nautobot/extras/tasks.py`, absent from `src/`): an object storing the
old value under the owning field's key is rewritten — scalar replacement
for single-select fields, element replacement for multi-select — and no
other key of its container is touched; pinned by
`CustomFieldBackgroundTasks.test_update_custom_field_choice_data_task`. -/
def updateChoiceData (ftype : CustomFieldTypeChoices) (key old new : String)
    (d : CFData) : CFData :=
  match ftype with
  | .TYPE_SELECT =>
    match cfGet d key with
    | some (.vstr s) => if s = old then cfSet d key (.vstr new) else d
    | _ => d
  | .TYPE_MULTISELECT =>
    match cfGet d key with
    | some (.vlist xs) =>
      if xs.contains old then cfSet d key (.vlist (substChoice old new xs))
      else d
    | _ => d
  | _ => d

/-- The single-select scenario of
`CustomFieldBackgroundTasks.test_update_custom_field_choice_data_task`:
one location stores `Foo` under `cf1`, the choice is renamed to `Bar`. -/
def choiceRenameData : CFData := [("cf1", .vstr "Foo")]

/-- Modelled from the spec: the `provision_field` background task
(`nautobot/extras/tasks.py`, absent from `src/`), dispatched when a new
`CustomField` is assigned content types: it writes the field's default
value into the `_custom_field_data` of every pre-existing object of an
applicable kind that lacks the key; pinned by
`CustomFieldBackgroundTasks.test_provision_field_task`. -/
def provision_field (cf : CustomField) (objs : List StoredObject) :
    List StoredObject :=
  objs.map (fun o =>
    match cfGet o.custom_field_data cf.name with
    | some _ => o
    | none =>
      match cf.default with
      | some v => { o with custom_field_data := cfSet o.custom_field_data cf.name v }
      | none => o)

/-- The pre-existing location of
`CustomFieldBackgroundTasks.test_provision_field_task`, saved before the
field `cf1` with default `Foo` exists. -/
def provisionLocation : StoredObject := { pk := 1, custom_field_data := [] }

/-- The field `cf1` of `test_provision_field_task`. -/
def cfProvision : CustomField :=
  { name := "cf1", type := .TYPE_TEXT, default := some (.vstr "Foo") }

/-! ## Query filter translation: negated operators (C2)

`CustomFieldFilterMixin` (`nautobot/extras/filters.py`, absent from
`src/`) translates a negated filter operator on key `key` into the Django
queryset expression
`exclude(_custom_field_data__key__<lookup>=value) | filter(_custom_field_data__key__isnull=True)`,
which is exactly the expected queryset of every negated-operator assertion
in `CustomFieldFilterTest.test_filter_text` / `test_filter_url`.  A path
lookup into the JSON blob yields SQL NULL for a missing key, so both a
`filter` and an `exclude` on the lookup drop such rows — hence the
explicit `isnull=True` union arm. -/

/-- Lower-cased character list of a string, the normalisation used by the
case-insensitive lookups. -/
def foldLower (s : String) : List Char :=
  s.toList.map Char.toLower

/-- Case-insensitive substring test (Django `icontains`). -/
def strIContains (hay needle : String) : Bool :=
  (charTails (foldLower hay)).any (fun t => (foldLower needle).isPrefixOf t)

/-- Case-insensitive suffix test (Django `iendswith`). -/
def strIEndsWith (hay needle : String) : Bool :=
  (foldLower needle).isSuffixOf (foldLower hay)

/-- Case-insensitive prefix test (Django `istartswith`). -/
def strIStartsWith (hay needle : String) : Bool :=
  (foldLower needle).isPrefixOf (foldLower hay)

/-- The positive Django field lookups that underlie the negated custom
field filter operators, with their lookup values. -/
inductive Lookup where
  | exact (v : CFValue)
  | iexact (s : String)
  | icontains (s : String)
  | iendswith (s : String)
  | istartswith (s : String)
  | regex (p : Pattern)
  | iregex (p : Pattern)
  deriving Repr

/-- The value-level meaning of each lookup on a present stored value. -/
def lookupMatches : Lookup → CFValue → Bool
  | .exact v, stored => decide (stored = v)
  | .iexact s, .vstr t => decide (foldLower t = foldLower s)
  | .iexact _, _ => false
  | .icontains s, .vstr t => strIContains t s
  | .icontains _, _ => false
  | .iendswith s, .vstr t => strIEndsWith t s
  | .iendswith _, _ => false
  | .istartswith s, .vstr t => strIStartsWith t s
  | .istartswith _, _ => false
  | .regex p, .vstr t => p.search t
  | .regex _, _ => false
  | .iregex p, .vstr t => p.searchCI t
  | .iregex _, _ => false

/-- The negated custom-field filter operators and their lookup values. -/
inductive NegatedLookup where
  | n (v : CFValue)
  | nie (s : String)
  | nic (s : String)
  | niew (s : String)
  | nisw (s : String)
  | nre (p : Pattern)
  | nire (p : Pattern)
  deriving Repr

/-- The positive lookup each negated operator negates (`n` → `exact`,
`nie` → `iexact`, `nic` → `icontains`, `niew` → `iendswith`,
`nisw` → `istartswith`, `nre` → `regex`, `nire` → `iregex`). -/
def NegatedLookup.base : NegatedLookup → Lookup
  | .n v => .exact v
  | .nie s => .iexact s
  | .nic s => .icontains s
  | .niew s => .iendswith s
  | .nisw s => .istartswith s
  | .nre p => .regex p
  | .nire p => .iregex p

/-- Django `queryset.filter(_custom_field_data__key__<lookup>=value)`:
rows whose blob holds a matching value under `key`; a missing key yields
NULL and never matches. -/
def qsFilterLookup (key : String) (lu : Lookup) (objs : List StoredObject) :
    List StoredObject :=
  objs.filter (fun o =>
    match cfGet o.custom_field_data key with
    | some v => lookupMatches lu v
    | none => false)

/-- Django `queryset.exclude(_custom_field_data__key__<lookup>=value)`:
rows whose blob holds a NON-matching value under `key`; a missing key
yields NULL, which also fails the negated SQL comparison, so such rows are
dropped here too. -/
def qsExcludeLookup (key : String) (lu : Lookup) (objs : List StoredObject) :
    List StoredObject :=
  objs.filter (fun o =>
    match cfGet o.custom_field_data key with
    | some v => ! lookupMatches lu v
    | none => false)

/-- Django `queryset.filter(_custom_field_data__key__isnull=True)`. -/
def qsFilterIsNull (key : String) (objs : List StoredObject) :
    List StoredObject :=
  objs.filter (fun o => (cfGet o.custom_field_data key).isNone)

/-- `qs1 | qs2` over two filters of the same base queryset: the rows of
the base belonging to either side. -/
def qsUnion (base a b : List StoredObject) : List StoredObject :=
  base.filter (fun o => decide (o ∈ a) || decide (o ∈ b))

/-- Modelled from the spec: the negated custom-field filter of
`CustomFieldFilterMixin` —
`exclude(condition) | filter(key__isnull=True)` — exactly the expected
querysets of the negated-operator assertions in
`CustomFieldFilterTest`. -/
def customFieldFilterNegated (key : String) (nl : NegatedLookup)
    (objs : List StoredObject) : List StoredObject :=
  qsUnion objs (qsExcludeLookup key nl.base objs) (qsFilterIsNull key objs)

/-- The positive condition a negated operator negates, on a whole object:
a present value matching the lookup; an absent key never matches. -/
def positiveCondition (key : String) (lu : Lookup) (o : StoredObject) : Bool :=
  match cfGet o.custom_field_data key with
  | some v => lookupMatches lu v
  | none => false

/-- Location 1 of `CustomFieldFilterTest.setUpTestData`. -/
def filterLoc1 : StoredObject :=
  { pk := 1, custom_field_data := [
      ("cf1", .vint 100), ("cf2", .vbool true), ("cf3", .vstr "foo"),
      ("cf4", .vstr "foo"), ("cf5", .vstr "2016-06-26"),
      ("cf6", .vstr "http://foo.example.com/"),
      ("cf7", .vstr "http://foo.example.com/"),
      ("cf8", .vstr "Foo"), ("cf9", .vlist [])] }

/-- Location 2 of `CustomFieldFilterTest.setUpTestData`. -/
def filterLoc2 : StoredObject :=
  { pk := 2, custom_field_data := [
      ("cf1", .vint 200), ("cf2", .vbool false), ("cf3", .vstr "foobar"),
      ("cf4", .vstr "foobar"), ("cf5", .vstr "2016-06-27"),
      ("cf6", .vstr "http://bar.example.com/"),
      ("cf7", .vstr "http://bar.example.com/"),
      ("cf8", .vstr "Bar"), ("cf9", .vlist ["Foo"])] }

/-- Location 3 of `CustomFieldFilterTest.setUpTestData` (only `cf9`). -/
def filterLoc3 : StoredObject :=
  { pk := 3, custom_field_data := [("cf9", .vlist ["Foo", "Bar"])] }

/-- Location 4 of `CustomFieldFilterTest.setUpTestData` (empty data). -/
def filterLoc4 : StoredObject := { pk := 4, custom_field_data := [] }

/-- The base queryset of `CustomFieldFilterTest`. -/
def filterLocations : List StoredObject :=
  [filterLoc1, filterLoc2, filterLoc3, filterLoc4]

/-- The pattern `f.*b` of `test_filter_text`. -/
def patternFb : Pattern :=
  { source := "f.*b", anchorStart := false, anchorEnd := false,
    body := .seq (.chr 'f') (.seq (.star .any) (.chr 'b')) }

/-- The pattern `F.*b` of `test_filter_text` (used case-insensitively). -/
def patternFbUpper : Pattern :=
  { source := "F.*b", anchorStart := false, anchorEnd := false,
    body := .seq (.chr 'F') (.seq (.star .any) (.chr 'b')) }

/-! ## Computed fields (C3)

`ComputedField.render` evaluates the admin-authored Jinja template with
the object bound as `obj`.  The evaluation itself belongs to the external
template engine; its possible outcomes are embedded as `RenderOutcome`.
The policy under verification is what `render` does with each outcome. -/

/-- A computed field definition (`ComputedField` model, absent from
`src/`).  `fallback_value` is blank by default, so a field created without
one falls back to the empty string. -/
structure ComputedField where
  slug : String
  label : String
  content_type : String
  template : String
  fallback_value : String := ""
  weight : Nat := 100
  deriving Repr, DecidableEq

/-- The outcome of evaluating a template against a bound object, at the
boundary to the external template engine: a rendered string, an attribute
chain that legitimately resolved to None, a template syntax/reference
error, or a TypeError raised while rendering. -/
inductive RenderOutcome where
  | ok (s : String)
  | noneValue
  | templateError
  | typeError
  deriving Repr, DecidableEq

/-- Modelled from the spec: `ComputedField.render` (absent from `src/`).
A successful evaluation returns the rendered string; an attribute chain
resolving to None renders as the empty string; a TemplateError or a
TypeError is caught and replaced by the configured fallback text.  The
function is total: no outcome propagates an exception.  Pinned by
`CustomFieldModelTest.test_get_computed_fields_method`. -/
def ComputedField.render (cf : ComputedField) (outcome : RenderOutcome) : String :=
  match outcome with
  | .ok s => s
  | .noneValue => ""
  | .templateError => cf.fallback_value
  | .typeError => cf.fallback_value

/-- Stable insertion into a weight-ordered list. -/
def insertByWeight (f : ComputedField) : List ComputedField → List ComputedField
  | [] => [f]
  | g :: gs => if f.weight < g.weight then f :: g :: gs else g :: insertByWeight f gs

/-- Stable sort by ascending weight: each field is inserted after every
already-placed field of smaller or equal weight. -/
def sortByWeight (fs : List ComputedField) : List ComputedField :=
  fs.foldl (fun acc f => insertByWeight f acc) []

/-- Modelled from the spec: `get_computed_fields` /
`ComputedFieldModelMixin` (absent from `src/`): the computed fields whose
content type matches the object's kind, ordered by weight, each rendered,
keyed by slug or — on request — by label. -/
def get_computed_fields_for (fields : List ComputedField) (kind : String)
    (eval : ComputedField → RenderOutcome) (label_as_key : Bool) :
    List (String × String) :=
  (sortByWeight (fields.filter (fun f => f.content_type = kind))).map
    (fun f => ((if label_as_key then f.label else f.slug), f.render (eval f)))

/-- `ComputedField.objects.create` without a `fallback_value` argument, as
in the `bad_attribute_computed_field` fixture. -/
def ComputedField.createNoFallback (ct slug label template : String)
    (weight : Nat) : ComputedField :=
  { content_type := ct, slug := slug, label := label, template := template,
    weight := weight }

/-- The five computed fields of `CustomFieldModelTest.setUp`; the template
sources use `\x7b` / `\x7d` escapes for the Jinja braces. -/
def computed_field_one : ComputedField :=
  { slug := "computed_field_one", label := "Computed Field One",
    content_type := "dcim.location",
    template := "\x7b\x7b obj.name \x7d\x7d is the name of this location.",
    fallback_value := "An error occurred while rendering this template.",
    weight := 100 }

def bad_computed_field : ComputedField :=
  { slug := "bad_computed_field", label := "Bad Computed Field",
    content_type := "dcim.location",
    template := "\x7b\x7b something_that_throws_an_err | not_a_real_filter \x7d\x7d bad data",
    fallback_value := "This template has errored",
    weight := 100 }

def worse_computed_field : ComputedField :=
  { slug := "worse_computed_field", label := "Worse Computed Field",
    content_type := "dcim.location",
    template := "\x7b\x7b obj.images | list \x7d\x7d",
    fallback_value := "Another template error",
    weight := 200 }

def non_location_computed_field : ComputedField :=
  { slug := "device_computed_field", label := "Device Computed Field",
    content_type := "dcim.device",
    template := "Hello, world.",
    fallback_value := "This template has errored",
    weight := 100 }

def bad_attribute_computed_field : ComputedField :=
  ComputedField.createNoFallback "dcim.location" "bad_attribute_computed_field"
    "Bad Attribute Computed Field" "\x7b\x7b obj.location \x7d\x7d" 200

def modelTestComputedFields : List ComputedField :=
  [computed_field_one, bad_computed_field, worse_computed_field,
   non_location_computed_field, bad_attribute_computed_field]

/-- The engine outcome of each fixture template against `location1`
(named `NYC`, with `location` attribute None): per `setUp`, the first
renders, the second hits a TemplateError (undefined filter), the third a
TypeError (`images` is not iterable for `list`), the last resolves its
attribute chain to None. -/
def modelTestEval (f : ComputedField) : RenderOutcome :=
  if f.slug = "computed_field_one" then .ok "NYC is the name of this location."
  else if f.slug = "bad_computed_field" then .templateError
  else if f.slug = "worse_computed_field" then .typeError
  else if f.slug = "bad_attribute_computed_field" then .noneValue
  else .ok "Hello, world."

/-! ## REST serializer: defaults and partial updates (C8, C9)

This part is embedded from `nautobot/extras/api/customfields.py` in
`src/`: `CustomFieldDefaultValues` (lines 17-40) and
`CustomFieldsDataField.to_internal_value` (lines 58-72).  The surrounding
REST-framework machinery — `CreateOnlyDefault` applying a field default
only during create, and the serializer writing the resolved value to the
`_custom_field_data` source attribute — is the external collaborator and
is modelled from the spec at that boundary. -/

/-- `CustomFieldDefaultValues.__call__`: for every custom field assigned
to the model, its default value, or None (stored as JSON null) when the
field has no default. -/
def CustomFieldDefaultValues (fields : List CustomField) : CFData :=
  fields.map (fun f => (f.name, match f.default with | some v => v | none => .vnull))

/-- `CustomFieldsDataField.to_internal_value`: translate the slug-keyed
payload to name-keyed backend data via the `CustomField` rows whose slug
occurs in the payload, then — when updating an existing instance — start
from the instance's `_custom_field_data` and merge the incoming mapping
over it. -/
def to_internal_value (registry : List CustomField) (inst0 : Option StoredObject)
    (data : CFData) : CFData :=
  let custom_fields := registry.filter (fun cf => (cfGet data cf.slug).isSome)
  let new_data := custom_fields.foldl (fun acc cf =>
    match cfGet data cf.slug with
    | some v => cfSet acc cf.name v
    | none => acc) []
  match inst0 with
  | some inst => cfMerge inst.custom_field_data new_data
  | none => new_data

/-- Modelled from the spec: the framework's resolution of the
`custom_fields` serializer field, declared in
`CustomFieldModelSerializerMixin` with
`default=CreateOnlyDefault(CustomFieldDefaultValues())`: a supplied
payload goes through `to_internal_value`; an omitted one falls back to
`CustomFieldDefaultValues` on create and is skipped entirely on update
(`CreateOnlyDefault` yields no value then). -/
def customFieldsToInternal (registry applicable : List CustomField)
    (inst0 : Option StoredObject) (payload : Option CFData) : Option CFData :=
  match payload with
  | some d => some (to_internal_value registry inst0 d)
  | none =>
    match inst0 with
    | none => some (CustomFieldDefaultValues applicable)
    | some _ => none

/-- Modelled from the spec: the serializer save writes a resolved
`custom_fields` value to the `_custom_field_data` attribute; with no
resolved value the instance keeps its data (update) or starts from the
model's empty-dict default (create). -/
def applyCustomFieldsWrite (inst0 : Option StoredObject) (pk : Nat)
    (resolved : Option CFData) : StoredObject :=
  match resolved with
  | some d =>
    match inst0 with
    | some inst => { inst with custom_field_data := d }
    | none => { pk := pk, custom_field_data := d }
  | none =>
    match inst0 with
    | some inst => inst
    | none => { pk := pk, custom_field_data := [] }

/-- Direct model construction, bypassing the API serializer:
`_custom_field_data` is the model field's empty-dict default and no
defaulting path runs. -/
def directConstruct (pk : Nat) : StoredObject :=
  { pk := pk, custom_field_data := [] }

/-- The text custom field of `CustomFieldDataAPITest.setUpTestData`. -/
def cfTextDefault : CustomField :=
  { name := "text_field", slug := "text_cf", type := .TYPE_TEXT,
    default := some (.vstr "foo") }

/-- Location 2 of `CustomFieldDataAPITest.setUpTestData`: it already
stores `bar` under `text_field`, differing from the field's default. -/
def apiLocation2 : StoredObject :=
  { pk := 2, custom_field_data := [
      ("text_field", .vstr "bar"), ("number_field", .vint 456),
      ("boolean_field", .vbool true), ("date_field", .vstr "2020-01-02"),
      ("url_field", .vstr "http://example.com/2"),
      ("choice_field", .vstr "Bar"),
      ("multi_choice_field", .vlist ["Bar", "Baz"])] }

/-- The custom field registry of `CustomFieldDataAPITest.setUpTestData`. -/
def apiRegistry : List CustomField :=
  [cfTextDefault,
   { name := "number_field", slug := "number_cf", type := .TYPE_INTEGER,
     default := some (.vint 123) },
   { name := "boolean_field", slug := "boolean_cf", type := .TYPE_BOOLEAN,
     default := some (.vbool false) },
   { name := "date_field", slug := "date_cf", type := .TYPE_DATE,
     default := some (.vstr "2020-01-01") },
   { name := "url_field", slug := "url_cf", type := .TYPE_URL,
     default := some (.vstr "http://example.com/1") },
   { name := "choice_field", slug := "choice_cf", type := .TYPE_SELECT,
     default := some (.vstr "Foo") },
   { name := "multi_choice_field", slug := "multi_choice_cf",
     type := .TYPE_MULTISELECT, default := some (.vlist ["Foo", "Bar"]) }]

/-- The PATCH payload of
`CustomFieldDataAPITest.test_update_single_object_with_values`. -/
def apiPatchPayload : CFData :=
  [("text_cf", .vstr "ABCD"), ("number_cf", .vint 1234)]

/-! Theorems: the claims, their witnesses, counterexamples, and the
supporting lemmas and concrete test-vector checks. -/

theorem cfGet_cfSet (d : CFData) (k : String) (v : CFValue) (k2 : String) :
    cfGet (cfSet d k v) k2 = if k2 = k then some v else cfGet d k2 := by
  induction d with
  | nil =>
    by_cases h : k2 = k
    · subst h; simp [cfSet, cfGet]
    · simp [cfSet, cfGet, h, Ne.symm h]
  | cons p rest ih =>
    obtain ⟨pk, pv⟩ := p
    by_cases hpk : pk = k
    · subst hpk
      by_cases h2 : k2 = pk
      · subst h2; simp [cfSet, cfGet]
      · simp [cfSet, cfGet, h2, Ne.symm h2]
    · by_cases h2 : k2 = pk
      · subst h2
        have hk : ¬k2 = k := fun hh => hpk hh
        simp [cfSet, cfGet, hpk, hk, Ne.symm hpk]
      · simp [cfSet, cfGet, hpk, h2, Ne.symm h2, ih]

theorem cfGet_cfErase (d : CFData) (k k2 : String) :
    cfGet (cfErase d k) k2 = if k2 = k then none else cfGet d k2 := by
  induction d with
  | nil => simp [cfErase, cfGet]
  | cons p rest ih =>
    obtain ⟨pk, pv⟩ := p
    simp only [cfErase, ne_eq, decide_not, List.filter_cons] at ih ⊢
    by_cases hpk : pk = k
    · subst hpk
      by_cases h2 : k2 = pk
      · subst h2; simpa [cfGet] using ih
      · simp [cfGet, h2, Ne.symm h2, ih]
    · by_cases h2 : k2 = pk
      · subst h2
        have hk : ¬k2 = k := fun hh => hpk hh
        simp [cfGet, hpk, hk, ih]
      · simp [cfGet, hpk, h2, Ne.symm h2, ih]

theorem cfGet_eq_none_of_not_mem (d : CFData) (k : String)
    (h : k ∉ d.map Prod.fst) : cfGet d k = none := by
  induction d with
  | nil => rfl
  | cons p rest ih =>
    obtain ⟨pk, pv⟩ := p
    simp only [List.map_cons, List.mem_cons] at h
    push_neg at h
    simp [cfGet, Ne.symm h.1, ih h.2]

theorem cfErase_cfErase (d : CFData) (k : String) :
    cfErase (cfErase d k) k = cfErase d k := by
  simp [cfErase, List.filter_filter]

theorem cfGet_cfMerge (a b : CFData) (k : String)
    (hb : (b.map Prod.fst).Nodup) :
    cfGet (cfMerge a b) k =
      match cfGet b k with
      | some v => some v
      | none => cfGet a k := by
  induction b generalizing a with
  | nil => simp [cfMerge, cfGet]
  | cons p rest ih =>
    obtain ⟨pk, pv⟩ := p
    simp only [List.map_cons, List.nodup_cons] at hb
    simp only [cfMerge, List.foldl_cons] at ih ⊢
    rw [ih (cfSet a pk pv) hb.2]
    by_cases hk : pk = k
    · subst hk
      rw [cfGet_eq_none_of_not_mem rest pk hb.1]
      simp [cfGet, cfGet_cfSet]
    · cases hrest : cfGet rest k <;>
        simp [cfGet, hk, cfGet_cfSet, Ne.symm hk, hrest]

example : patternACx.search "ABC1" = true := by decide
example : patternACx.search "00AbC0" = true := by decide
example : patternACx.search "00ABC0x00" = true := by decide
example : patternACx.search "abc1" = false := by decide
example : patternACx.search "AC1" = false := by decide
example : patternACx.search "00AbC" = false := by decide
example : patternACx.search "abc1x" = false := by decide
example : patternACx.search "00abc1x00" = false := by decide
example : patternThreeUpper.search "ABC" = true := by decide
example : patternThreeUpper.search "abc" = false := by decide
example : patternThreeUpper.search "ABC123" = false := by decide

example : (cfRegexText.validate [] (.vstr "00AbC0")).isOk = true := by decide
example : (cfRegexText.validate [] (.vstr "ABC1")).isOk = true := by decide
example : (cfRegexText.validate [] (.vstr "00ABC0x00")).isOk = true := by decide
example : (cfRegexText.validate [] (.vstr "abc1")).isOk = false := by decide
example : (cfRegexText.validate [] (.vstr "AC1")).isOk = false := by decide
example : (cfRegexText.validate [] (.vstr "00AbC")).isOk = false := by decide
example : (cfRegexText.validate [] (.vstr "abc1x")).isOk = false := by decide
example : (cfRegexText.validate [] (.vstr "00abc1x00")).isOk = false := by decide

/-- C1 counterexample.  With the validation pattern `A.C[01]x?` of
`CustomFieldTest.test_regex_validation`, the value `00AbC0` passes
validation (test line 363 requires `validated_save` to succeed on it),
although the full string does not match the pattern.  Hence "validation of
a present string value succeeds if and only if the full string matches the
pattern" is false: validation uses Python `re.search`, which matches
anywhere in the string. -/
theorem C1_counterexample :
    cfRegexText.validation_regex = some patternACx ∧
    (cfRegexText.validate [] (.vstr "00AbC0")).isOk = true ∧
    specFullStringMatch patternACx "00AbC0" = false := by
  refine ⟨rfl, ?_, ?_⟩ <;> decide

/-- C1 (amended).  For every text or url custom field with a validation
pattern configured, validation of a present string value succeeds if and
only if the pattern matches the string with Python `re.search` semantics
(anywhere in the string; `^`/`$` anchors inside the pattern may restrict
the match to the whole string); on mismatch the ValidationError message
names the pattern, and choice validation additionally names the offending
value. -/
theorem C1_regex_validation_uses_search (cf : CustomField) (p : Pattern)
    (s : String) (choices : List String)
    (htype : cf.type = .TYPE_TEXT ∨ cf.type = .TYPE_URL)
    (hre : cf.validation_regex = some p) :
    ((cf.validate choices (.vstr s)).isOk = true ↔ p.search s = true) ∧
    (p.search s = false →
      cf.validate choices (.vstr s) =
        .error ("Value must match regex " ++ squote ++ p.source ++ squote)) ∧
    (∀ c : CustomFieldChoice, p.search c.value = false →
      CustomFieldChoice.clean cf c =
        .error ("Value must match regex " ++ p.source ++ " got " ++ c.value ++ ".")) := by
  refine ⟨?_, ?_, ?_⟩
  · rcases htype with h | h <;>
      simp only [CustomField.validate, h, hre] <;>
      cases hs : p.search s <;> simp [hs, Except.isOk, Except.toBool]
  · intro hs
    rcases htype with h | h <;> simp [CustomField.validate, h, hre, hs]
  · intro c hs
    simp [CustomFieldChoice.clean, hre, hs]

/-- C1 witness: the amended theorem applied to the text field and pattern
of `CustomFieldTest.test_regex_validation` at the rejected value `abc1`. -/
theorem C1_regex_validation_uses_search_witness :
    cfRegexText.validate [] (.vstr "abc1") =
      .error ("Value must match regex " ++ squote ++ "A.C[01]x?" ++ squote) ∧
    CustomFieldChoice.clean cfRegexText
      { custom_field := "cf_test_text", value := "abc1" } =
      .error ("Value must match regex " ++ "A.C[01]x?" ++ " got " ++ "abc1" ++ ".") :=
  ⟨(C1_regex_validation_uses_search cfRegexText patternACx "abc1" []
      (Or.inl rfl) rfl).2.1 (by decide),
   (C1_regex_validation_uses_search cfRegexText patternACx "abc1" []
      (Or.inl rfl) rfl).2.2
      { custom_field := "cf_test_text", value := "abc1" } (by decide)⟩

/-- C7.  For every integer custom field with minimum/maximum bounds
configured, a present value passes validation if and only if
minimum ≤ value ≤ maximum (both bounds inclusive); values and bounds are
arbitrary-precision integers, so this holds beyond the 32-bit range. -/
theorem C7_integer_bounds_inclusive (cf : CustomField) (mn mx i : Int)
    (choices : List String)
    (htype : cf.type = .TYPE_INTEGER)
    (hmin : cf.validation_minimum = some mn)
    (hmax : cf.validation_maximum = some mx) :
    (cf.validate choices (.vint i)).isOk = true ↔ (mn ≤ i ∧ i ≤ mx) := by
  simp only [CustomField.validate, htype, hmin, hmax, Option.any_some]
  by_cases h1 : i < mn
  · rw [if_pos (decide_eq_true h1)]
    simp only [Except.isOk, Except.toBool, Bool.false_eq_true, false_iff]
    omega
  · rw [if_neg (by simp [h1])]
    by_cases h2 : mx < i
    · rw [if_pos (decide_eq_true h2)]
      simp only [Except.isOk, Except.toBool, Bool.false_eq_true, false_iff]
      omega
    · rw [if_neg (by simp [h2])]
      simp only [Except.isOk, Except.toBool, true_iff]
      omega

/-- C7 witness: the bounds theorem applied at the beyond-32-bit values of
the bigint API tests (maximum 5000000000): 4294967294 passes and
5000000001 fails. -/
theorem C7_integer_bounds_inclusive_witness :
    (cfNumber.validate [] (.vint 4294967294)).isOk = true ∧
    (cfNumber.validate [] (.vint 5000000001)).isOk = false := by
  constructor
  · exact (C7_integer_bounds_inclusive cfNumber (-5000000000) 5000000000
      4294967294 [] rfl rfl rfl).mpr (by decide)
  · rw [Bool.eq_false_iff]
    intro hc
    exact absurd ((C7_integer_bounds_inclusive cfNumber (-5000000000) 5000000000
      5000000001 [] rfl rfl rfl).mp hc) (by decide)

example : (cfMinMax.validate [] (.vint 9)).isOk = false := by decide
example : (cfMinMax.validate [] (.vint 21)).isOk = false := by decide
example : (cfMinMax.validate [] (.vint 15)).isOk = true := by decide
example : (cfNumber.validate [] (.vint (-4294967294))).isOk = true := by decide
example : (cfNumber.validate [] (.vint (-5000000001))).isOk = false := by decide

/-- C4.  For every already-persisted custom field definition, a validated
save that changes its name, slug or type fails with a ValidationError and
leaves the persisted definition unchanged. -/
theorem C4_immutable_name_slug_type (orig cur : CustomField)
    (hchanged : cur.name ≠ orig.name ∨ cur.slug ≠ orig.slug ∨ cur.type ≠ orig.type) :
    (CustomField.validated_save (some orig) cur).1 = some orig ∧
    ∃ e, (CustomField.validated_save (some orig) cur).2 = .error e := by
  have hclean : ∃ e, CustomField.clean (some orig) cur = .error e := by
    by_cases hn : cur.name = orig.name
    · by_cases hs : cur.slug = orig.slug
      · have ht : cur.type ≠ orig.type := by tauto
        exact ⟨"Type cannot be changed once created",
          by simp [CustomField.clean, hn, hs, ht]⟩
      · exact ⟨"Slug cannot be changed once created",
          by simp [CustomField.clean, hn, hs]⟩
    · exact ⟨"Name cannot be changed once created",
        by simp [CustomField.clean, hn]⟩
  obtain ⟨e, he⟩ := hclean
  simp [CustomField.validated_save, he]

/-- C4 witness: renaming the persisted `Custom Field` definition fails and
leaves the row unchanged. -/
theorem C4_immutable_name_slug_type_witness :
    (CustomField.validated_save (some cfImmutable)
      { cfImmutable with name := "Different Custom Field" }).1 = some cfImmutable :=
  (C4_immutable_name_slug_type cfImmutable
    { cfImmutable with name := "Different Custom Field" } (Or.inl (by decide))).1

/-- C5.  Deleting a field definition removes its key from every object's
container and deletes every choice belonging to it, and the cleanup is
idempotent: running the deletion fan-out a second time is a no-op. -/
theorem C5_delete_purges_key_and_choices_idempotent (db : Database) (name : String) :
    ((deleteCustomField db name).objects.all
      (fun o => (cfGet o.custom_field_data name).isNone)) = true ∧
    ((deleteCustomField db name).choices.all
      (fun c => decide (c.custom_field ≠ name))) = true ∧
    deleteCustomField (deleteCustomField db name) name = deleteCustomField db name := by
  refine ⟨?_, ?_, ?_⟩
  · simp only [deleteCustomField, List.all_eq_true, List.mem_map]
    rintro o ⟨o0, ho0, rfl⟩
    simp [cfGet_cfErase]
  · simp only [deleteCustomField, List.all_eq_true, List.mem_filter]
    intro c hc
    exact hc.2
  · simp [deleteCustomField, List.filter_filter, List.map_map, Function.comp,
      cfErase_cfErase]

theorem substChoice_of_not_contains (xs : List String) (old new : String)
    (h : xs.contains old = false) : substChoice old new xs = xs := by
  induction xs with
  | nil => rfl
  | cons x rest ih =>
    simp only [List.contains_cons, Bool.or_eq_false_iff] at h
    have hx : ¬(x = old) := by
      intro hh
      subst hh
      simp at h
    simp only [substChoice, List.map_cons] at ih ⊢
    rw [if_neg hx, ih h.2]

/-- C6.  Renaming a choice's value rewrites the stored value of every
container currently holding the old value — scalar replacement for a
single-choice field, element replacement inside the list for a
multi-choice field — while the value under every other key is unchanged. -/
theorem C6_choice_rename_propagates (ftype : CustomFieldTypeChoices)
    (key old new : String) (d : CFData) :
    (ftype = .TYPE_SELECT → cfGet d key = some (.vstr old) →
      cfGet (updateChoiceData ftype key old new d) key = some (.vstr new)) ∧
    (ftype = .TYPE_MULTISELECT → ∀ xs, cfGet d key = some (.vlist xs) →
      cfGet (updateChoiceData ftype key old new d) key =
        some (.vlist (substChoice old new xs))) ∧
    (∀ k2, k2 ≠ key →
      cfGet (updateChoiceData ftype key old new d) k2 = cfGet d k2) := by
  refine ⟨?_, ?_, ?_⟩
  · intro ht hget
    subst ht
    simp [updateChoiceData, hget, cfGet_cfSet]
  · intro ht xs hget
    subst ht
    simp only [updateChoiceData, hget]
    cases hc : xs.contains old
    · rw [if_neg (by simp [hc])]
      rw [hget, substChoice_of_not_contains xs old new hc]
    · rw [if_pos rfl]
      simp [cfGet_cfSet]
  · intro k2 hk2
    cases ftype <;> simp only [updateChoiceData]
    case TYPE_SELECT =>
      cases hget : cfGet d key with
      | none => rfl
      | some v =>
        cases v with
        | vstr s =>
          by_cases hs : s = old
          · simp [hs, cfGet_cfSet, hk2]
          · simp [hs]
        | vnull => rfl
        | vbool b => rfl
        | vint i => rfl
        | vlist xs => rfl
    case TYPE_MULTISELECT =>
      cases hget : cfGet d key with
      | none => rfl
      | some v =>
        cases v with
        | vlist xs =>
          show cfGet (if xs.contains old = true then
            cfSet d key (.vlist (substChoice old new xs)) else d) k2 = cfGet d k2
          cases hc : xs.contains old
          · rw [if_neg (by simp)]
          · rw [if_pos rfl]
            simp [cfGet_cfSet, hk2]
        | vnull => rfl
        | vbool b => rfl
        | vint i => rfl
        | vstr s => rfl

/-- C6 witness: the rename theorem applied to the task test's scenario:
the location storing `Foo` under `cf1` now stores `Bar`, and an unrelated
key is untouched. -/
theorem C6_choice_rename_propagates_witness :
    cfGet (updateChoiceData .TYPE_SELECT "cf1" "Foo" "Bar" choiceRenameData) "cf1" =
      some (.vstr "Bar") ∧
    cfGet (updateChoiceData .TYPE_SELECT "cf1" "Foo" "Bar" choiceRenameData) "cf2" =
      cfGet choiceRenameData "cf2" :=
  ⟨(C6_choice_rename_propagates .TYPE_SELECT "cf1" "Foo" "Bar" choiceRenameData).1
      rfl (by decide),
   (C6_choice_rename_propagates .TYPE_SELECT "cf1" "Foo" "Bar" choiceRenameData).2.2
      "cf2" (by decide)⟩

example :
    cfGet (updateChoiceData .TYPE_SELECT "cf1" "Foo" "Bar" choiceRenameData) "cf1" =
      some (.vstr "Bar") := by decide

/-- C10.  Creating a field definition with a default value provisions that
default into the container of every pre-existing object of an applicable
kind (none of which holds the key yet, the field being new), so each of
them subsequently reads the default although never written through the
accessor. -/
theorem C10_provision_populates_default (cf : CustomField) (v : CFValue)
    (objs : List StoredObject) (hd : cf.default = some v)
    (habsent : objs.all (fun o => (cfGet o.custom_field_data cf.name).isNone) = true) :
    (provision_field cf objs).all
      (fun o => decide (cfGet o.custom_field_data cf.name = some v)) = true := by
  rw [List.all_eq_true] at habsent
  rw [List.all_eq_true]
  intro o ho
  simp only [provision_field, List.mem_map] at ho
  obtain ⟨o0, ho0, rfl⟩ := ho
  have h0 := habsent o0 ho0
  rw [Option.isNone_iff_eq_none] at h0
  simp [h0, hd, cfGet_cfSet]

/-- C10 witness: provisioning `cf1` over the task test's pre-existing
location makes it read the default `Foo`. -/
theorem C10_provision_populates_default_witness :
    (provision_field cfProvision [provisionLocation]).all
      (fun o => decide (cfGet o.custom_field_data "cf1" = some (.vstr "Foo"))) = true :=
  C10_provision_populates_default cfProvision (.vstr "Foo") [provisionLocation]
    rfl (by decide)

/-- C2.  For every negated filter operator on a custom field key, an
object is in the result set exactly when it is in the base queryset and
the corresponding positive condition is false on it; in particular every
object whose container lacks the key is included in the negated result. -/
theorem C2_negated_filter_complements_and_keeps_absent (key : String)
    (nl : NegatedLookup) (objs : List StoredObject) (o : StoredObject) :
    (o ∈ customFieldFilterNegated key nl objs ↔
      o ∈ objs ∧ positiveCondition key nl.base o = false) ∧
    (o ∈ objs → cfGet o.custom_field_data key = none →
      o ∈ customFieldFilterNegated key nl objs) := by
  have hmain : ∀ oo : StoredObject, oo ∈ customFieldFilterNegated key nl objs ↔
      oo ∈ objs ∧ positiveCondition key nl.base oo = false := by
    intro oo
    simp only [customFieldFilterNegated, qsUnion, qsExcludeLookup, qsFilterIsNull,
      List.mem_filter, Bool.or_eq_true, decide_eq_true_eq, positiveCondition]
    cases hget : cfGet oo.custom_field_data key with
    | none => simp [hget]
    | some v =>
      simp only [hget, Option.isNone_some, Bool.false_eq_true, and_false, or_false,
        Bool.not_eq_true']
      tauto
  refine ⟨hmain o, fun ho hnone => (hmain o).mpr ⟨ho, ?_⟩⟩
  simp [positiveCondition, hnone]

/-- C2 witness: the theorem applied at the `nic` operator on key `cf4` to
Location 3, which lacks the key entirely and is included in the negated
result. -/
theorem C2_negated_filter_complements_and_keeps_absent_witness :
    filterLoc3 ∈ customFieldFilterNegated "cf4" (.nic "OOB") filterLocations :=
  (C2_negated_filter_complements_and_keeps_absent "cf4" (.nic "OOB")
    filterLocations filterLoc3).2 (by decide) (by decide)

example : customFieldFilterNegated "cf4" (.n (.vstr "foo")) filterLocations =
    [filterLoc2, filterLoc3, filterLoc4] := by decide
example : customFieldFilterNegated "cf4" (.nic "OOB") filterLocations =
    [filterLoc1, filterLoc3, filterLoc4] := by decide
example : customFieldFilterNegated "cf4" (.niew "Bar") filterLocations =
    [filterLoc1, filterLoc3, filterLoc4] := by decide
example : customFieldFilterNegated "cf4" (.nisw "Foob") filterLocations =
    [filterLoc1, filterLoc3, filterLoc4] := by decide
example : customFieldFilterNegated "cf4" (.nie "Foo") filterLocations =
    [filterLoc2, filterLoc3, filterLoc4] := by decide
example : customFieldFilterNegated "cf4" (.nre patternFb) filterLocations =
    [filterLoc1, filterLoc3, filterLoc4] := by decide
example : customFieldFilterNegated "cf4" (.nire patternFbUpper) filterLocations =
    [filterLoc1, filterLoc3, filterLoc4] := by decide
example : customFieldFilterNegated "cf6" (.n (.vstr "http://foo.example.com/"))
    filterLocations = [filterLoc2, filterLoc3, filterLoc4] := by decide
example : customFieldFilterNegated "cf6" (.nic "FOO.example.COM") filterLocations =
    [filterLoc2, filterLoc3, filterLoc4] := by decide

/-- C3.  Rendering a computed field never raises to the caller: a template
syntax/reference error or a TypeError yields the configured fallback text
(a field created without a fallback has the empty string as its fallback),
an attribute chain resolving to None yields the empty string (not the
fallback), and a successful evaluation yields the rendered string. -/
theorem C3_render_fallback_policy (cf : ComputedField) (oc : RenderOutcome)
    (ct slug label template : String) (weight : Nat) :
    ((oc = .templateError ∨ oc = .typeError) →
      cf.render oc = cf.fallback_value) ∧
    (oc = .noneValue → cf.render oc = "") ∧
    (∀ s, oc = .ok s → cf.render oc = s) ∧
    (ComputedField.createNoFallback ct slug label template weight).fallback_value
      = "" := by
  refine ⟨?_, ?_, ?_, rfl⟩
  · rintro (rfl | rfl) <;> rfl
  · rintro rfl; rfl
  · rintro s rfl; rfl

example : get_computed_fields_for modelTestComputedFields "dcim.location"
    modelTestEval false =
    [("computed_field_one", "NYC is the name of this location."),
     ("bad_computed_field", "This template has errored"),
     ("worse_computed_field", "Another template error"),
     ("bad_attribute_computed_field", "")] := by decide

example : get_computed_fields_for modelTestComputedFields "dcim.location"
    modelTestEval true =
    [("Computed Field One", "NYC is the name of this location."),
     ("Bad Computed Field", "This template has errored"),
     ("Worse Computed Field", "Another template error"),
     ("Bad Attribute Computed Field", "")] := by decide

example : ((get_computed_fields_for modelTestComputedFields "dcim.location"
    modelTestEval false).map Prod.fst).contains "device_computed_field" = false := by
  decide

/-- C3 witness: the policy theorem applied to the `bad_computed_field`
fixture at the TemplateError outcome: it renders its fallback text. -/
theorem C3_render_fallback_policy_witness :
    bad_computed_field.render .templateError = "This template has errored" :=
  (C3_render_fallback_policy bad_computed_field .templateError
    "dcim.location" "s" "l" "t" 100).1 (Or.inl rfl)

theorem cfGet_CustomFieldDefaultValues (fields : List CustomField)
    (f : CustomField) (hf : f ∈ fields)
    (hnodup : (fields.map CustomField.name).Nodup) :
    cfGet (CustomFieldDefaultValues fields) f.name =
      some (match f.default with | some v => v | none => .vnull) := by
  induction fields with
  | nil => cases hf
  | cons x rest ih =>
    simp only [List.map_cons, List.nodup_cons] at hnodup
    rcases List.mem_cons.mp hf with rfl | hmem
    · simp [CustomFieldDefaultValues, cfGet]
    · have hne : x.name ≠ f.name := by
        intro he
        exact hnodup.1 (he ▸ List.mem_map_of_mem CustomField.name hmem)
      simpa [CustomFieldDefaultValues, cfGet, hne] using ih hmem hnodup.2

/-- C8.  Default population is create-only: an object created through the
API with no `custom_fields` payload receives each applicable field's
default (null when the field has none) exactly once, at creation; on a
later update with the payload omitted nothing is rewritten — a value once
supplied is never silently overwritten by a default — and an object
constructed directly, bypassing the serializer, has an entirely absent
container rather than defaults. -/
theorem C8_defaults_create_only (registry applicable : List CustomField)
    (inst : StoredObject) (pk : Nat) (f : CustomField)
    (hnodup : (applicable.map CustomField.name).Nodup) (hf : f ∈ applicable) :
    cfGet (applyCustomFieldsWrite none pk
        (customFieldsToInternal registry applicable none none)).custom_field_data
        f.name =
      some (match f.default with | some v => v | none => .vnull) ∧
    applyCustomFieldsWrite (some inst) pk
        (customFieldsToInternal registry applicable (some inst) none) = inst ∧
    (∀ k, cfGet (directConstruct pk).custom_field_data k = none) := by
  refine ⟨?_, rfl, fun k => rfl⟩
  exact cfGet_CustomFieldDefaultValues applicable f hf hnodup

/-- C8 witness: the create-only theorem at the API test fixture — a
created object receives the `foo` default, an update with the field
omitted leaves Location 2 (storing `bar`) untouched, and a directly
constructed object reads nothing. -/
theorem C8_defaults_create_only_witness :
    cfGet (applyCustomFieldsWrite none 3
        (customFieldsToInternal [cfTextDefault] [cfTextDefault] none none)).custom_field_data
        "text_field" = some (.vstr "foo") ∧
    applyCustomFieldsWrite (some apiLocation2) 2
        (customFieldsToInternal [cfTextDefault] [cfTextDefault] (some apiLocation2) none) =
      apiLocation2 ∧
    (∀ k, cfGet (directConstruct 3).custom_field_data k = none) :=
  C8_defaults_create_only [cfTextDefault] [cfTextDefault] apiLocation2 3
    cfTextDefault (by decide) (by decide)

theorem cfGet_foldl_slugTranslate_eq (l : List CustomField) (data : CFData)
    (init : CFData) (k : String)
    (h : ∀ cf ∈ l, (cfGet data cf.slug).isSome → cf.name ≠ k) :
    cfGet (l.foldl (fun acc cf =>
      match cfGet data cf.slug with
      | some v => cfSet acc cf.name v
      | none => acc) init) k = cfGet init k := by
  induction l generalizing init with
  | nil => rfl
  | cons cf rest ih =>
    simp only [List.foldl_cons]
    have hrest : ∀ c ∈ rest, (cfGet data c.slug).isSome → c.name ≠ k :=
      fun c hc => h c (List.mem_cons_of_mem cf hc)
    cases hslug : cfGet data cf.slug with
    | none => exact ih init hrest
    | some v =>
      rw [ih (cfSet init cf.name v) hrest, cfGet_cfSet]
      have hne : cf.name ≠ k :=
        h cf (List.mem_cons_self cf rest) (by simp [hslug])
      rw [if_neg (fun hh => hne hh.symm)]

theorem cfGet_cfMerge_of_none (a b : CFData) (k : String)
    (hb : cfGet b k = none) : cfGet (cfMerge a b) k = cfGet a k := by
  induction b generalizing a with
  | nil => rfl
  | cons p rest ih =>
    obtain ⟨pk, pv⟩ := p
    simp only [cfGet] at hb
    by_cases hpk : pk = k
    · simp [hpk] at hb
    · rw [if_neg hpk] at hb
      simp only [cfMerge, List.foldl_cons] at ih ⊢
      rw [ih (cfSet a pk pv) hb, cfGet_cfSet, if_neg (fun hh => hpk hh.symm)]

/-- C9.  An API update that supplies only a subset of custom field slugs
under `custom_fields` leaves every custom field key not named by the
payload at its previously stored value: `to_internal_value` merges the
translated incoming mapping over the instance's existing
`_custom_field_data`. -/
theorem C9_partial_update_preserves_unnamed_keys (registry : List CustomField)
    (inst : StoredObject) (data : CFData) (k : String)
    (h : ∀ cf ∈ registry, (cfGet data cf.slug).isSome → cf.name ≠ k) :
    cfGet (to_internal_value registry (some inst) data) k =
      cfGet inst.custom_field_data k := by
  simp only [to_internal_value]
  apply cfGet_cfMerge_of_none
  rw [cfGet_foldl_slugTranslate_eq]
  · rfl
  · intro cf hcf
    exact h cf (List.mem_filter.mp hcf).1

/-- C9 witness: the merge theorem at the API update test — the
`boolean_field` key, not named by the payload, keeps its stored value. -/
theorem C9_partial_update_preserves_unnamed_keys_witness :
    cfGet (to_internal_value apiRegistry (some apiLocation2) apiPatchPayload)
      "boolean_field" = cfGet apiLocation2.custom_field_data "boolean_field" :=
  C9_partial_update_preserves_unnamed_keys apiRegistry apiLocation2
    apiPatchPayload "boolean_field" (by decide)

example : to_internal_value apiRegistry (some apiLocation2) apiPatchPayload =
    [("text_field", .vstr "ABCD"), ("number_field", .vint 1234),
     ("boolean_field", .vbool true), ("date_field", .vstr "2020-01-02"),
     ("url_field", .vstr "http://example.com/2"),
     ("choice_field", .vstr "Bar"),
     ("multi_choice_field", .vlist ["Bar", "Baz"])] := by decide

example : to_internal_value apiRegistry none
    [("text_cf", .vstr "bar"), ("number_cf", .vint 456)] =
    [("text_field", .vstr "bar"), ("number_field", .vint 456)] := by decide


end Nautobot
